import Mathlib

/-!
Verification of purarue/google_takeout_parser against its specification.

The decoders in src/google_takeout_parser/parse_json.py operate on the value
returned by json.loads, so the embedding works over a JSON value type.  Python
datetimes are modelled as rational numbers of seconds since the Unix epoch
(always UTC-anchored); Python floats are modelled as rationals, so the
fixed-point divisions by 1e7 and 1e6 are exact.  Per-record exceptions that the
source catches become Except values in the yielded list; exceptions the source
does not catch abort the generator and are recorded in the raised field.
-/

set_option maxRecDepth 4000

attribute [local semireducible] Rat.mul Rat.add Rat.sub Rat.inv

namespace Takeout

/-- A value produced by json.loads: null, bool, int, float, str, list, dict. -/
inductive JSON where
  | null : JSON
  | bool (b : Bool) : JSON
  | int (n : Int) : JSON
  | float (q : Rat) : JSON
  | str (s : String) : JSON
  | arr (xs : List JSON) : JSON
  | obj (kvs : List (String × JSON)) : JSON

/-- The Python exception kinds the decoders can raise or catch. -/
inductive PyErr where
  | attributeErr (msg : String) : PyErr
  | typeErr (msg : String) : PyErr
  | valueErr (msg : String) : PyErr
  | keyErr (k : String) : PyErr
  | assertionErr : PyErr
  | runtimeErr (msg : String) : PyErr
deriving DecidableEq

/-- One step of a generator loop body: skip (continue with no yield),
yield one element, or raise an uncaught exception aborting the generator. -/
inductive RecStep (α : Type) where
  | skip : RecStep α
  | yield1 (r : Except PyErr α) : RecStep α
  | raised (e : PyErr) : RecStep α

/-- The observable behaviour of fully consuming one decoder generator:
the elements it yielded, and the uncaught exception (if any) that ended it. -/
structure GenOut (α : Type) where
  yielded : List (Except PyErr α)
  raised : Option PyErr

/-- Run a loop body over the records of a file, accumulating yields and
stopping at the first uncaught exception. -/
def runSteps {α : Type} (f : JSON → RecStep α) : List JSON → GenOut α
  | [] => ⟨[], none⟩
  | x :: xs =>
    match f x with
    | .skip => runSteps f xs
    | .raised e => ⟨[], some e⟩
    | .yield1 r =>
      let rest := runSteps f xs
      ⟨r :: rest.yielded, rest.raised⟩

/-- Association lookup in a JSON object (dict keys are unique in practice). -/
def lookupKV : List (String × JSON) → String → Option JSON
  | [], _ => none
  | (k, v) :: rest, key => if k = key then some v else lookupKV rest key

/-- Python d.get(key, default): attribute error on non-dicts. -/
def pyGetD (v : JSON) (k : String) (dflt : JSON) : Except PyErr JSON :=
  match v with
  | .obj kvs => .ok ((lookupKV kvs k).getD dflt)
  | _ => .error (.attributeErr "object has no attribute get")

/-- Python d.get(key), defaulting to None. -/
def pyGet (v : JSON) (k : String) : Except PyErr JSON :=
  pyGetD v k .null

/-- Python d[key]: KeyError when the key is missing from a dict. -/
def pySubscript (v : JSON) (k : String) : Except PyErr JSON :=
  match v with
  | .obj kvs =>
    match lookupKV kvs k with
    | some x => .ok x
    | none => .error (.keyErr k)
  | _ => .error (.typeErr "object is not subscriptable")

def listPrefixOf : List Char → List Char → Bool
  | [], _ => true
  | _ :: _, [] => false
  | a :: as, b :: bs => a = b && listPrefixOf as bs

def listInfixOf (needle : List Char) : List Char → Bool
  | [] => needle.isEmpty
  | c :: t => listPrefixOf needle (c :: t) || listInfixOf needle t

/-- String startswith, via the character lists (kernel-friendly). -/
def strStarts (s pre : String) : Bool :=
  listPrefixOf pre.toList s.toList

def JSON.isNull : JSON → Bool
  | .null => true
  | _ => false

def JSON.isList : JSON → Bool
  | .arr _ => true
  | _ => false

def JSON.eqStr (v : JSON) (s : String) : Bool :=
  match v with
  | .str t => t = s
  | _ => false

def JSON.isDict : JSON → Bool
  | .obj _ => true
  | _ => false

/-- Python iteration: lists yield elements, dicts yield their keys,
strings yield 1-character strings, anything else raises TypeError. -/
def pyIter : JSON → Except PyErr (List JSON)
  | .arr xs => .ok xs
  | .obj kvs => .ok (kvs.map (fun kv => JSON.str kv.1))
  | .str s => .ok (s.toList.map (fun c => JSON.str (String.mk [c])))
  | _ => .error (.typeErr "object is not iterable")

/-- Python key in container: dict key test, list membership (a str equals
only an equal str), substring test on strings, TypeError otherwise. -/
def pyContains (v : JSON) (k : String) : Except PyErr Bool :=
  match v with
  | .obj kvs => .ok (lookupKV kvs k).isSome
  | .arr xs => .ok (xs.any (fun x => x.eqStr k))
  | .str s => .ok (listInfixOf k.toList s.toList)
  | _ => .error (.typeErr "argument is not iterable")

/-- Python int() truncates toward zero. -/
def pyTrunc (q : Rat) : Int :=
  if 0 ≤ q then ⌊q⌋ else ⌈q⌉

/-- Python str() of a JSON value.  Only the str and None cases are ever
exercised by the repository data (subtitle and detail names); the renderings
of the remaining cases are simplified stand-ins for the Python repr. -/
def pyStr : JSON → String
  | .str s => s
  | .null => "None"
  | .bool b => if b then "True" else "False"
  | .int n => toString n
  | .float q => toString q
  | .arr _ => "[...]"
  | .obj _ => "\x7b...\x7d"

def isDigitCh (c : Char) : Bool :=
  48 ≤ c.toNat && c.toNat ≤ 57

def digitValCh (c : Char) : Nat :=
  c.toNat - 48

/-- Split a character list at the first non-digit. -/
def readDigits : List Char → List Char × List Char
  | [] => ([], [])
  | c :: t =>
    if isDigitCh c then
      let (ds, r) := readDigits t
      (c :: ds, r)
    else ([], c :: t)

def digitsToNat (ds : List Char) : Nat :=
  ds.foldl (fun a c => 10 * a + digitValCh c) 0

/-- Value of a fractional-digit tail, e.g. "25" after a point means 25/100. -/
def fracValue (ds : List Char) : Rat :=
  (digitsToNat ds : Rat) / ((10 : Rat) ^ ds.length)

/-- Python float() of a decimal string literal (sign, digits, optional
fractional part).  Anything else fails with ValueError. -/
def parseDecimalChars (cs : List Char) : Option Rat :=
  let (sign, rest) :=
    match cs with
    | '-' :: t => ((-1 : Rat), t)
    | '+' :: t => ((1 : Rat), t)
    | t => ((1 : Rat), t)
  let (ds, r1) := readDigits rest
  if ds.isEmpty then none
  else
    match r1 with
    | [] => some (sign * (digitsToNat ds : Rat))
    | '.' :: r2 =>
      let (fs, r3) := readDigits r2
      if r3.isEmpty then some (sign * ((digitsToNat ds : Rat) + fracValue fs))
      else none
    | _ => none

/-- Python float() applied to a JSON value. -/
def pyFloat : JSON → Except PyErr Rat
  | .int n => .ok (n : Rat)
  | .float q => .ok q
  | .bool b => .ok (if b then 1 else 0)
  | .str s =>
    match parseDecimalChars s.toList with
    | some q => .ok q
    | none => .error (.valueErr "could not convert string to float")
  | _ => .error (.typeErr "float() argument must be a string or a number")

/-- Python int() applied to a JSON value (strings must be integer literals). -/
def pyInt : JSON → Except PyErr Int
  | .int n => .ok n
  | .float q => .ok (pyTrunc q)
  | .bool b => .ok (if b then 1 else 0)
  | .str s =>
    let (sign, rest) :=
      match s.toList with
      | '-' :: t => ((-1 : Int), t)
      | '+' :: t => ((1 : Int), t)
      | t => ((1 : Int), t)
    let (ds, r1) := readDigits rest
    if ds.isEmpty || !r1.isEmpty then
      .error (.valueErr "invalid literal for int() with base 10")
    else .ok (sign * (digitsToNat ds : Int))
  | _ => .error (.typeErr "int() argument must be a string or a number")

/-- Python binary true division value / d for a numeric JSON value;
non-numbers raise TypeError (str / int is not defined). -/
def pyDivNum (v : JSON) (d : Rat) : Except PyErr Rat :=
  match v with
  | .int n => .ok ((n : Rat) / d)
  | .float q => .ok (q / d)
  | .bool b => .ok ((if b then (1 : Rat) else 0) / d)
  | _ => .error (.typeErr "unsupported operand type for /")

/-- Days since 1970-01-01 of a proleptic-Gregorian civil date
(the standard days-from-civil computation). -/
def daysFromCivil (y : Int) (m d : Nat) : Int :=
  let y2 : Int := if m ≤ 2 then y - 1 else y
  let era : Int := y2.fdiv 400
  let yoe : Int := y2 - era * 400
  let mp : Nat := if 2 < m then m - 3 else m + 9
  let doy : Int := ((153 * mp + 2) / 5 + d - 1 : Nat)
  let doe : Int := yoe * 365 + yoe.fdiv 4 - yoe.fdiv 100 + doy
  era * 146097 + doe - 719468

def expectCh (c : Char) : List Char → Option (List Char)
  | x :: t => if x = c then some t else none
  | [] => none

def read2 : List Char → Option (Nat × List Char)
  | a :: b :: rest =>
    if isDigitCh a && isDigitCh b then
      some (10 * digitValCh a + digitValCh b, rest)
    else none
  | _ => none

def read4 : List Char → Option (Nat × List Char)
  | a :: b :: c :: d :: rest =>
    if isDigitCh a && isDigitCh b && isDigitCh c && isDigitCh d then
      some (digitsToNat [a, b, c, d], rest)
    else none
  | _ => none

/-- Parse the time-of-day part HH:MM:SS with optional fractional seconds and
optional trailing Z, returning seconds into the day. -/
def isoParseTime (cs : List Char) : Option Rat := do
  let (h, r1) ← read2 cs
  let r2 ← expectCh ':' r1
  let (mi, r3) ← read2 r2
  let r4 ← expectCh ':' r3
  let (sec, r5) ← read2 r4
  if h ≤ 23 && mi ≤ 59 && sec ≤ 59 then
    let (frac, r6) :=
      match r5 with
      | '.' :: r =>
        let (fs, rr) := readDigits r
        (fracValue fs, rr)
      | r => ((0 : Rat), r)
    match r6 with
    | [] => some ((3600 * h + 60 * mi + sec : Nat) + frac)
    | ['Z'] => some ((3600 * h + 60 * mi + sec : Nat) + frac)
    | _ => none
  else none

/-- Parse an ISO-8601 date or datetime string to UTC epoch seconds. -/
def isoParseChars (cs : List Char) : Option Rat := do
  let (y, r1) ← read4 cs
  let r2 ← expectCh '-' r1
  let (mo, r3) ← read2 r2
  let r4 ← expectCh '-' r3
  let (d, r5) ← read2 r4
  if 1 ≤ mo && mo ≤ 12 && 1 ≤ d && d ≤ 31 then
    let days : Rat := (daysFromCivil (y : Int) mo d : Int)
    match r5 with
    | [] => some (86400 * days)
    | 'T' :: r6 => do
      let tod ← isoParseTime r6
      some (86400 * days + tod)
    | ' ' :: r6 => do
      let tod ← isoParseTime r6
      some (86400 * days + tod)
    | _ => none
  else none

def isoParse (s : String) : Option Rat :=
  isoParseChars s.toList

/-- Modelled from the spec: time_utils.parse_json_utc_date is not under src/.
Per the spec (sect. 4.2, timestamp decoding) it parses an ISO-8601 string and
normalizes it to a UTC-anchored timestamp; non-strings and unparseable
strings raise. -/
def parse_json_utc_date (v : JSON) : Except PyErr Rat :=
  match v with
  | .str s =>
    match isoParse s with
    | some q => .ok q
    | none => .error (.valueErr "invalid isoformat string")
  | _ => .error (.typeErr "fromisoformat argument must be str")

/-- Modelled from the spec: time_utils.parse_datetime_millis is not under
src/.  Per the spec, an integer millisecond-epoch value is normalized to a
UTC-anchored timestamp, i.e. divided by 1000. -/
def parse_datetime_millis (v : JSON) : Except PyErr Rat :=
  pyDivNum v 1000

/-- Modelled from the spec: the http_allowlist module is not under src/.
The set of hosts that are known safe to upgrade from http to https;
representative entries standing in for the real allowlist. -/
def upgradeable_hosts : List String :=
  ["youtube.com", "www.youtube.com", "m.youtube.com",
   "google.com", "www.google.com", "maps.google.com"]

/-- The host portion of an http URL: the characters after "http://" and
before the first slash. -/
def urlHost (u : String) : String :=
  String.mk ((u.toList.drop 7).takeWhile (fun c => c ≠ '/'))

/-- Modelled from the spec: http_allowlist.convert_to_https is not under
src/.  Per the spec (sect. 4.2, URL normalization): when the original scheme
is plain http and the host is safe to upgrade, canonicalize to https;
otherwise the string is returned unchanged. -/
def convert_to_https (u : String) : String :=
  if strStarts u "http://" && upgradeable_hosts.any (fun h => h = urlHost u) then
    "https://" ++ String.mk (u.toList.drop 7)
  else u

/-- Modelled from the spec: http_allowlist.convert_to_https_opt is not under
src/.  Per the spec, an absent (None) value passes through unchanged; a
string is converted by convert_to_https. -/
def convert_to_https_opt (v : JSON) : Except PyErr JSON :=
  match v with
  | .null => .ok .null
  | .str s => .ok (.str (convert_to_https s))
  | _ => .error (.attributeErr "object has no attribute split")

/-! Event models from src/google_takeout_parser/models.py.  Field order
follows the dataclass declarations.  Fields that the decoders store without
any conversion keep the raw JSON value (Python dataclasses do not check the
annotated types at runtime); datetime fields are UTC epoch seconds. -/

structure Subtitles where
  name : String
  url : JSON

structure LocationInfo where
  name : JSON
  url : JSON
  source : JSON
  sourceUrl : JSON

structure Activity where
  header : JSON
  title : JSON
  time : Rat
  description : JSON
  titleUrl : JSON
  subtitles : List Subtitles
  details : List String
  locationInfos : List LocationInfo
  products : JSON

def Activity.dt (a : Activity) : Rat :=
  a.time

def Activity.key (a : Activity) : JSON × JSON × Int :=
  (a.header, a.title, pyTrunc a.time)

structure LikedYoutubeVideo where
  title : JSON
  desc : JSON
  link : String
  dt : Rat

def LikedYoutubeVideo.key (l : LikedYoutubeVideo) : Int :=
  pyTrunc l.dt

structure PlayStoreAppInstall where
  title : JSON
  lastUpdateTime : Rat
  firstInstallationTime : Rat
  deviceName : JSON
  deviceCarrier : JSON
  deviceManufacturer : JSON

def PlayStoreAppInstall.dt (a : PlayStoreAppInstall) : Rat :=
  a.lastUpdateTime

def PlayStoreAppInstall.key (a : PlayStoreAppInstall) : Int :=
  pyTrunc a.lastUpdateTime

structure Location where
  lat : Rat
  lng : Rat
  accuracy : Option Rat
  deviceTag : Option Int
  source : JSON
  dt : Rat

def Location.key (l : Location) : Rat × Rat × Option Rat × Int :=
  (l.lat, l.lng, l.accuracy, pyTrunc l.dt)

structure CandidateLocation where
  lat : Rat
  lng : Rat
  address : JSON
  name : JSON
  placeId : JSON
  semanticType : JSON
  locationConfidence : JSON
  sourceInfoDeviceTag : JSON

structure PlaceVisit where
  lat : Rat
  lng : Rat
  centerLat : Option Rat
  centerLng : Option Rat
  address : JSON
  name : JSON
  locationConfidence : JSON
  placeId : JSON
  startTime : Rat
  endTime : Rat
  sourceInfoDeviceTag : JSON
  otherCandidateLocations : List CandidateLocation
  placeConfidence : JSON
  placeVisitType : JSON
  visitConfidence : JSON
  editConfirmationStatus : JSON
  placeVisitImportance : JSON

def PlaceVisit.dt (p : PlaceVisit) : Rat :=
  p.startTime

def PlaceVisit.key (p : PlaceVisit) : Rat × Rat × Int × JSON :=
  (p.lat, p.lng, pyTrunc p.startTime, p.visitConfidence)

structure ChromeHistory where
  title : JSON
  url : JSON
  dt : Rat
  pageTransition : JSON

def ChromeHistory.key (c : ChromeHistory) : JSON × Int :=
  (c.url, pyTrunc c.dt)

/-! Decoders from src/google_takeout_parser/parse_json.py.  Each decoder
takes the json.loads value of a file.  File-path interpolations in the
Python error messages are dropped (the embedding has no Path argument). -/

/-- One entry of the subtitles list: non-dict entries and entries without a
name key are skipped (continue); the url is stored unconverted. -/
def parseSubtitleItem (s : JSON) : Option Subtitles :=
  match s with
  | .obj kvs =>
    match lookupKV kvs "name" with
    | some nv => some ⟨pyStr nv, (lookupKV kvs "url").getD .null⟩
    | none => none
  | _ => none

/-- One entry of the details list comprehension: kept only for dict entries
carrying a name key. -/
def parseDetailItem (d : JSON) : Option String :=
  match d with
  | .obj kvs => (lookupKV kvs "name").map pyStr
  | _ => none

/-- One entry of the locationInfos list comprehension (failures propagate to
the record-level except clause). -/
def parseLocInfoItem (li : JSON) : Except PyErr LocationInfo := do
  let name ← pyGet li "name"
  let url ← convert_to_https_opt (← pyGet li "url")
  let src ← pyGet li "source"
  let sourceUrl ← convert_to_https_opt (← pyGet li "sourceUrl")
  pure ⟨name, url, src, sourceUrl⟩

/-- The body of the per-record loop of _parse_json_activity: everything is
inside the try, so every Python exception becomes an error element. -/
def parseActivityBlob (blob : JSON) : Except PyErr Activity := do
  let subsJ ← pyGetD blob "subtitles" (.arr [])
  let subsItems ← pyIter subsJ
  let subtitles := subsItems.filterMap parseSubtitleItem
  let oldFormat ← pyContains blob "snippet"
  let (blob2, header, timeStr) ←
    if oldFormat then do
      let b ← pyGet blob "snippet"
      let t ← pyGet b "publishedAt"
      pure (b, JSON.str "YouTube", t)
    else do
      let hJ ← pyGet blob "header"
      let h ←
        if hJ.isNull then do
          let tv ← pyGet blob "title"
          match tv with
          | .str t =>
            if strStarts t "Visited view-source:" then pure (JSON.str "Chrome")
            else .error .assertionErr
          | _ => .error (.attributeErr "object has no attribute startswith")
        else pure hJ
      let t ← pyGet blob "time"
      pure (blob, h, t)
  let title ← pyGet blob2 "title"
  let titleUrl ← convert_to_https_opt (← pyGet blob2 "titleUrl")
  let description ← pyGet blob2 "description"
  let time ← parse_json_utc_date timeStr
  let detailsJ ← pyGetD blob2 "details" (.arr [])
  let detailsItems ← pyIter detailsJ
  let details := detailsItems.filterMap parseDetailItem
  let locJ ← pyGetD blob2 "locationInfos" (.arr [])
  let locItems ← pyIter locJ
  let locationInfos ← locItems.mapM parseLocInfoItem
  let products ← pyGetD blob2 "products" (.arr [])
  pure ⟨header, title, time, description, titleUrl, subtitles, details,
        locationInfos, products⟩

/-- _parse_json_activity: a non-list root yields a whole-file RuntimeError
but the loop over the root still runs (there is no return after the yield);
a root that cannot be iterated raises an uncaught TypeError. -/
def _parse_json_activity (root : JSON) : GenOut Activity :=
  let head : List (Except PyErr Activity) :=
    if root.isList then []
    else [.error (.runtimeErr "Activity: Top level item is not a list")]
  match pyIter root with
  | .error e => ⟨head, some e⟩
  | .ok blobs => ⟨head ++ blobs.map parseActivityBlob, none⟩

/-- The body of the per-record loop of _parse_likes (all inside the try). -/
def parseLikeBlob (j : JSON) : Except PyErr LikedYoutubeVideo := do
  let sn1 ← pyGetD j "snippet" (.obj [])
  let title ← pyGet sn1 "title"
  let sn2 ← pyGetD j "snippet" (.obj [])
  let desc ← pyGet sn2 "description"
  let cd ← pyGetD j "contentDetails" (.obj [])
  let vid ← pyGet cd "videoId"
  let link := "https://youtube.com/watch?v=" ++ pyStr vid
  let sn3 ← pyGetD j "snippet" (.obj [])
  let pub ← pyGet sn3 "publishedAt"
  let dt ← parse_json_utc_date pub
  pure ⟨title, desc, link, dt⟩

/-- _parse_likes: same top-level structure as _parse_json_activity. -/
def _parse_likes (root : JSON) : GenOut LikedYoutubeVideo :=
  let head : List (Except PyErr LikedYoutubeVideo) :=
    if root.isList then []
    else [.error (.runtimeErr "Likes: Top level item is not a list")]
  match pyIter root with
  | .error e => ⟨head, some e⟩
  | .ok blobs => ⟨head ++ blobs.map parseLikeBlob, none⟩

/-- _parse_timestamp_key: an Ms-suffixed key selects the millisecond-epoch
encoding, otherwise the plain key is read as an ISO-8601 string. -/
def _parse_timestamp_key (d : JSON) (key : String) : Except PyErr Rat := do
  let hasMs ← pyContains d (key ++ "Ms")
  if hasMs then do
    let v ← pySubscript d (key ++ "Ms")
    parse_datetime_millis v
  else do
    let v ← pySubscript d key
    parse_json_utc_date v

/-- The three leading .get calls of the location loop body, which sit before
the try in the source. -/
def locationRecordPre (loc : JSON) : Except PyErr (JSON × JSON × JSON) := do
  let a ← pyGet loc "accuracy"
  let d ← pyGet loc "deviceTag"
  let s ← pyGet loc "source"
  pure (a, d, s)

/-- The try block of the location loop body. -/
def locationRecordTry (loc accuracyJ deviceTagJ sourceJ : JSON) :
    Except PyErr Location := do
  let lng ← pyFloat (← pyGet loc "longitudeE7")
  let lat ← pyFloat (← pyGet loc "latitudeE7")
  let dt ← _parse_timestamp_key loc "timestamp"
  let accuracy ←
    if accuracyJ.isNull then pure none
    else do pure (some (← pyFloat accuracyJ))
  let deviceTag ←
    if deviceTagJ.isNull then pure none
    else do pure (some (← pyInt deviceTagJ))
  pure (Location.mk (lat / 10 ^ 7) (lng / 10 ^ 7) accuracy deviceTag
          sourceJ dt)

/-- The element the location loop yields for a dict record (for which the
pre-try .get calls cannot raise). -/
def locationRecordYield (loc : JSON) : Except PyErr Location :=
  match locationRecordPre loc with
  | .error e => .error e
  | .ok (accuracyJ, deviceTagJ, sourceJ) =>
    locationRecordTry loc accuracyJ deviceTagJ sourceJ

/-- The body of the per-record loop of _parse_location_history.  The three
leading .get calls sit before the try, so a non-dict record raises an
uncaught AttributeError that aborts the whole generator. -/
def parseLocationRecord (loc : JSON) : RecStep Location :=
  match locationRecordPre loc with
  | .error e => .raised e
  | .ok (accuracyJ, deviceTagJ, sourceJ) =>
    .yield1 (locationRecordTry loc accuracyJ deviceTagJ sourceJ)

/-- _parse_location_history: the missing-locations-key yield has no return
after it either, and .get on a non-dict root raises uncaught. -/
def _parse_location_history (root : JSON) : GenOut Location :=
  match pyContains root "locations" with
  | .error e => ⟨[], some e⟩
  | .ok has =>
    let head : List (Except PyErr Location) :=
      if has then []
      else [.error (.runtimeErr "Locations: no locations key")]
    match pyGetD root "locations" (.arr []) with
    | .error e => ⟨head, some e⟩
    | .ok locs =>
      match pyIter locs with
      | .error e => ⟨head, some e⟩
      | .ok items =>
        let rest := runSteps parseLocationRecord items
        ⟨head ++ rest.yielded, rest.raised⟩

def _sem_required_keys : List String :=
  ["location", "duration"]

def _sem_required_location_keys : List String :=
  ["placeId", "latitudeE7", "longitudeE7"]

/-- _check_required_keys: first missing key, if any (membership tests follow
Python in semantics, so they can raise on non-containers). -/
def _check_required_keys (d : JSON) : List String → Except PyErr (Option String)
  | [] => .ok none
  | k :: rest => do
    let has ← pyContains d k
    if has then _check_required_keys d rest else pure (some k)

/-- CandidateLocation.from_dict from models.py: asserts that placeId or
semanticType is present, and reads the E7 coordinates by subscript (KeyError
when missing) divided by 1e7. -/
def CandidateLocation.from_dict (data : JSON) : Except PyErr CandidateLocation := do
  let placeId ← pyGet data "placeId"
  let semanticType ← pyGet data "semanticType"
  if placeId.isNull && semanticType.isNull then
    .error .assertionErr
  else do
    let address ← pyGet data "address"
    let name ← pyGet data "name"
    let locationConfidence ← pyGet data "locationConfidence"
    let lat ← pyDivNum (← pySubscript data "latitudeE7") (10 ^ 7)
    let lng ← pyDivNum (← pySubscript data "longitudeE7") (10 ^ 7)
    let srcInfo ← pyGetD data "sourceInfo" (.obj [])
    let sourceInfoDeviceTag ← pyGet srcInfo "deviceTag"
    pure ⟨lat, lng, address, name, placeId, semanticType, locationConfidence,
          sourceInfoDeviceTag⟩

/-- The part of the placeVisit try block that runs once the location has all
its required keys (from CandidateLocation.from_dict onward). -/
def placeVisitBuild (placeVisit location_json : JSON) :
    Except PyErr PlaceVisit := do
  let location ← CandidateLocation.from_dict location_json
  let placeId := location.placeId
  if placeId.isNull then
    .error .assertionErr
  else do
    let duration ← pyGet placeVisit "duration"
    let oclJ ← pyGetD placeVisit "otherCandidateLocations" (.arr [])
    let oclItems ← pyIter oclJ
    let otherCandidateLocations ← oclItems.mapM CandidateLocation.from_dict
    let placeConfidence ← pyGet placeVisit "placeConfidence"
    let placeVisitImportance ← pyGet placeVisit "placeVisitImportance"
    let placeVisitType ← pyGet placeVisit "placeVisitType"
    let visitConfidence ← pyGet placeVisit "visitConfidence"
    let editConfirmationStatus ← pyGet placeVisit "editConfirmationStatus"
    let hasCLat ← pyContains placeVisit "centerLatE7"
    let centerLat ←
      if hasCLat then do
        pure (some ((← pyFloat (← pyGet placeVisit "centerLatE7")) / 10 ^ 7))
      else pure none
    let hasCLng ← pyContains placeVisit "centerLngE7"
    let centerLng ←
      if hasCLng then do
        pure (some ((← pyFloat (← pyGet placeVisit "centerLngE7")) / 10 ^ 7))
      else pure none
    let startTime ← _parse_timestamp_key duration "startTimestamp"
    let endTime ← _parse_timestamp_key duration "endTimestamp"
    pure ⟨location.lat, location.lng, centerLat, centerLng, location.address,
          location.name, location.locationConfidence, placeId, startTime,
          endTime, location.sourceInfoDeviceTag, otherCandidateLocations,
          placeConfidence, placeVisitType, visitConfidence,
          editConfirmationStatus, placeVisitImportance⟩

/-- The try block of the placeVisit loop: a missing required location key is
logged at debug level and the record is skipped with no yielded value
(modelled as ok none). -/
def placeVisitTryBody (placeVisit : JSON) : Except PyErr (Option PlaceVisit) :=
  match pyGet placeVisit "location" with
  | .error e => .error e
  | .ok location_json =>
    match _check_required_keys location_json _sem_required_location_keys with
    | .error e => .error e
    | .ok (some _) => .ok none
    | .ok none => (placeVisitBuild placeVisit location_json).map some

/-- The except clause of the placeVisit loop rewrites a KeyError into a
RuntimeError naming the key. -/
def keyErrConvert (e : PyErr) : PyErr :=
  match e with
  | .keyErr k => .runtimeErr ("PlaceVisit: no key " ++ k)
  | _ => e

/-- The body of the per-record loop of _parse_semantic_location_history.
The placeVisit membership test, .get and required-keys check run before the
try, so they can raise uncaught. -/
def parsePlaceVisitRecord (tlo : JSON) : RecStep PlaceVisit :=
  match pyContains tlo "placeVisit" with
  | .error e => .raised e
  | .ok false => .skip
  | .ok true =>
    match pyGet tlo "placeVisit" with
    | .error e => .raised e
    | .ok placeVisit =>
      match _check_required_keys placeVisit _sem_required_keys with
      | .error e => .raised e
      | .ok (some k) =>
        .yield1 (.error (.runtimeErr ("PlaceVisit: no " ++ k ++ " key")))
      | .ok none =>
        match placeVisitTryBody placeVisit with
        | .ok (some pv) => .yield1 (.ok pv)
        | .ok none => .skip
        | .error e => .yield1 (.error (keyErrConvert e))

/-- _parse_semantic_location_history: the two top-level checks yield errors
without returning, and .get on a non-dict root raises uncaught. -/
def _parse_semantic_location_history (root : JSON) : GenOut PlaceVisit :=
  let head1 : List (Except PyErr PlaceVisit) :=
    match root with
    | .obj _ => []
    | _ => [.error (.runtimeErr "Locations: Top level item is not a dict")]
  match pyContains root "timelineObjects" with
  | .error e => ⟨head1, some e⟩
  | .ok has =>
    let head2 : List (Except PyErr PlaceVisit) :=
      if has then []
      else [.error (.runtimeErr "Locations: no timelineObjects key")]
    match pyGetD root "timelineObjects" (.arr []) with
    | .error e => ⟨head1 ++ head2, some e⟩
    | .ok tObjs =>
      match pyIter tObjs with
      | .error e => ⟨head1 ++ head2, some e⟩
      | .ok items =>
        let rest := runSteps parsePlaceVisitRecord items
        ⟨head1 ++ head2 ++ rest.yielded, rest.raised⟩

/-- The body of the per-record loop of _parse_chrome_history (all inside the
try): the microsecond epoch is divided by 10^6 and anchored to UTC. -/
def parseChromeRecord (item : JSON) : Except PyErr ChromeHistory := do
  let tu ← pyGet item "time_usec"
  let dt ← pyDivNum tu (10 ^ 6)
  let title ← pyGet item "title"
  let url ← pyGet item "url"
  let hasPT ← pyContains item "page_transition"
  let pageTransition ← if hasPT then pyGet item "page_transition" else pure .null
  pure ⟨title, url, dt, pageTransition⟩

/-- _parse_chrome_history: the missing-key yield has no return after it, and
.get on a non-dict root raises uncaught. -/
def _parse_chrome_history (root : JSON) : GenOut ChromeHistory :=
  match pyContains root "Browser History" with
  | .error e => ⟨[], some e⟩
  | .ok has =>
    let head : List (Except PyErr ChromeHistory) :=
      if has then []
      else [.error (.runtimeErr "Chrome/BrowserHistory: no Browser History key")]
    match pyGetD root "Browser History" (.arr []) with
    | .error e => ⟨head, some e⟩
    | .ok bh =>
      match pyIter bh with
      | .error e => ⟨head, some e⟩
      | .ok items => ⟨head ++ items.map parseChromeRecord, none⟩

/-! Shared lemmas. -/

@[simp] theorem exceptBind_ok {α β : Type} (a : α) (f : α → Except PyErr β) :
    (Except.ok a : Except PyErr α) >>= f = f a := rfl

@[simp] theorem exceptBind_error {α β : Type} (e : PyErr)
    (f : α → Except PyErr β) :
    (Except.error e : Except PyErr α) >>= f = .error e := rfl

/-- Python int() truncation moves a timestamp by strictly less than one
second. -/
theorem abs_sub_pyTrunc_lt_one (q : Rat) : |q - (pyTrunc q : Rat)| < 1 := by
  unfold pyTrunc
  split
  · rw [abs_of_nonneg (sub_nonneg.mpr (Int.floor_le q))]
    linarith [Int.sub_one_lt_floor q]
  · rw [abs_of_nonpos (sub_nonpos.mpr (Int.le_ceil q))]
    linarith [Int.ceil_lt_add_one q]

/-- A dict record of the location history loop never raises in the pre-try
zone: its step is a yield of locationRecordYield. -/
theorem parseLocationRecord_isDict (kvs : List (String × JSON)) :
    parseLocationRecord (.obj kvs) =
      .yield1 (locationRecordYield (.obj kvs)) := rfl

/-- Running the location loop over dict records yields one element per
record, each computed from that record alone. -/
theorem runSteps_location_all_dict (items : List JSON)
    (h : ∀ x ∈ items, x.isDict = true) :
    runSteps parseLocationRecord items =
      ⟨items.map locationRecordYield, none⟩ := by
  induction items with
  | nil => rfl
  | cons x xs ih =>
    have hx : x.isDict = true := h x (List.mem_cons_self x xs)
    have hxs : ∀ y ∈ xs, y.isDict = true :=
      fun y hy => h y (List.mem_cons_of_mem x hy)
    cases x <;>
      first
        | (rw [runSteps, parseLocationRecord_isDict, ih hxs]; rfl)
        | simp [JSON.isDict] at hx

/-! Claim theorems. -/

/-- C1 (counterexample): in the location-history decoder a non-dict record
("x") followed by a perfectly decodable record makes the generator raise an
uncaught AttributeError before yielding anything: no DecodeError value is
produced for the bad record and the subsequent well-formed record — which on
its own decodes fine — is not decoded, refuting record-granularity isolation
for every decoder. -/
theorem C1_counterexample :
    _parse_location_history
      (.obj [("locations", .arr [.str "x",
        .obj [("latitudeE7", .int 377749000),
              ("longitudeE7", .int (-1224194000)),
              ("timestampMs", .int 2000)]])]) =
      ⟨[], some (.attributeErr "object has no attribute get")⟩ ∧
    locationRecordYield
      (.obj [("latitudeE7", .int 377749000),
             ("longitudeE7", .int (-1224194000)),
             ("timestampMs", .int 2000)]) =
      .ok ⟨377749 / 10000, -1224194 / 10000, none, none, .null, 2⟩ :=
  ⟨rfl, by rfl⟩

/-- C1 (amended): per-record isolation holds in the activity decoder for
every record (each output element is computed from its own record alone and
decoding always continues), and in the location-history decoder for records
that are dicts; a non-dict record in the locations list raises an uncaught
error that aborts the rest of the file. -/
theorem C1_per_record_isolation :
    (∀ blobs : List JSON,
        _parse_json_activity (.arr blobs) =
          ⟨blobs.map parseActivityBlob, none⟩) ∧
    (∀ items : List JSON, (∀ x ∈ items, x.isDict = true) →
        runSteps parseLocationRecord items =
          ⟨items.map locationRecordYield, none⟩) ∧
    (∀ (kvs : List (String × JSON)) (items : List JSON),
        (∀ x ∈ items, x.isDict = true) →
        _parse_location_history
            (.obj (("locations", JSON.arr items) :: kvs)) =
          ⟨items.map locationRecordYield, none⟩) := by
  refine ⟨fun blobs => rfl, fun items h => runSteps_location_all_dict items h,
          fun kvs items h => ?_⟩
  have e : _parse_location_history
      (.obj (("locations", JSON.arr items) :: kvs)) =
      runSteps parseLocationRecord items := rfl
  rw [e, runSteps_location_all_dict items h]

/-- C1 (witness): over two dict records — one missing longitudeE7 (its
float(None) conversion fails), one well-formed — the location loop yields a
per-record error followed by a decoded event. -/
theorem C1_per_record_isolation_witness :
    (∀ x ∈ [JSON.obj [("latitudeE7", JSON.int 1)],
            JSON.obj [("latitudeE7", JSON.int 377749000),
                      ("longitudeE7", JSON.int (-1224194000)),
                      ("timestampMs", JSON.int 2000)]], JSON.isDict x = true) ∧
    runSteps parseLocationRecord
        [JSON.obj [("latitudeE7", JSON.int 1)],
         JSON.obj [("latitudeE7", JSON.int 377749000),
                   ("longitudeE7", JSON.int (-1224194000)),
                   ("timestampMs", JSON.int 2000)]] =
      ⟨[.error (.typeErr "float() argument must be a string or a number"),
        .ok ⟨377749 / 10000, -1224194 / 10000, none, none, .null, 2⟩],
       none⟩ :=
  ⟨by decide, by
    rw [C1_per_record_isolation.2.1 _ (by decide)]
    rfl⟩

/-- C2 (counterexample): on a map root the activity decoder yields the
whole-file DecodeError and then keeps going, attempting per-record decoding
of the root's key, so the output has two elements, not exactly one. -/
theorem C2_counterexample :
    _parse_json_activity (.obj [("a", JSON.null)]) =
      ⟨[.error (.runtimeErr "Activity: Top level item is not a list"),
        .error (.attributeErr "object has no attribute get")], none⟩ ∧
    (_parse_json_activity (.obj [("a", JSON.null)])).yielded.length = 2 :=
  ⟨rfl, rfl⟩

/-- C2 (amended): on a map root the activity and likes decoders emit the
whole-file DecodeError as the first element but do not stop: they then
iterate the unexpected root, treating each key as a record, and every such
pseudo-record yields a further per-record error (an empty map root thus
yields exactly one error). -/
theorem C2_root_error_without_stop :
    (∀ kvs : List (String × JSON),
        _parse_json_activity (.obj kvs) =
          ⟨.error (.runtimeErr "Activity: Top level item is not a list") ::
            kvs.map (fun kv => parseActivityBlob (.str kv.1)), none⟩) ∧
    (∀ k : String, parseActivityBlob (.str k) =
        .error (.attributeErr "object has no attribute get")) ∧
    (∀ kvs : List (String × JSON),
        _parse_likes (.obj kvs) =
          ⟨.error (.runtimeErr "Likes: Top level item is not a list") ::
            kvs.map (fun kv => parseLikeBlob (.str kv.1)), none⟩) ∧
    (∀ k : String, parseLikeBlob (.str k) =
        .error (.attributeErr "object has no attribute get")) := by
  refine ⟨fun kvs => ?_, fun k => rfl, fun kvs => ?_, fun k => rfl⟩ <;>
    simp [_parse_json_activity, _parse_likes, pyIter, JSON.isList,
          List.map_map, Function.comp]

/-- C5: fixed-point E7 coordinates are decoded by dividing the integer by
10^7: the location-history decoder does so for latitudeE7/longitudeE7, and
CandidateLocation.from_dict likewise; in particular latitudeE7=377749000 and
longitudeE7=-1224194000 decode exactly to (37.7749, -122.4194). -/
theorem C5_e7_coordinate_scaling :
    (∀ la ln t : Int,
        parseLocationRecord
          (.obj [("latitudeE7", .int la), ("longitudeE7", .int ln),
                 ("timestampMs", .int t)]) =
          .yield1 (.ok ⟨(la : Rat) / 10 ^ 7, (ln : Rat) / 10 ^ 7, none, none,
                        .null, (t : Rat) / 1000⟩)) ∧
    (∀ (la ln : Int) (pid : String),
        CandidateLocation.from_dict
          (.obj [("placeId", .str pid), ("latitudeE7", .int la),
                 ("longitudeE7", .int ln)]) =
          .ok ⟨(la : Rat) / 10 ^ 7, (ln : Rat) / 10 ^ 7, .null, .null,
               .str pid, .null, .null, .null⟩) ∧
    ((377749000 : Int) : Rat) / 10 ^ 7 = 377749 / 10000 ∧
    ((-1224194000 : Int) : Rat) / 10 ^ 7 = -(1224194 / 10000) := by
  refine ⟨fun la ln t => rfl, fun la ln pid => rfl, by decide, by decide⟩

/-- C6: _parse_timestamp_key detects the encoding by checking for the
Ms-suffixed key — an integer millisecond epoch under keyMs is divided by
1000, otherwise the plain key is read as an ISO-8601 string — and both
normalize to the single UTC-anchored timestamp representation; the Chrome
history decoder divides the integer microsecond epoch under time_usec by
10^6 and anchors it to UTC. -/
theorem C6_timestamp_encoding_detection :
    (∀ (kvs : List (String × JSON)) (key : String) (m : Int),
        lookupKV kvs (key ++ "Ms") = some (.int m) →
        _parse_timestamp_key (.obj kvs) key = .ok ((m : Rat) / 1000)) ∧
    (∀ (kvs : List (String × JSON)) (key s : String) (q : Rat),
        lookupKV kvs (key ++ "Ms") = none →
        lookupKV kvs key = some (.str s) →
        isoParse s = some q →
        _parse_timestamp_key (.obj kvs) key = .ok q) ∧
    (∀ (u : Int) (ti ur : String),
        parseChromeRecord
          (.obj [("time_usec", .int u), ("title", .str ti),
                 ("url", .str ur)]) =
          .ok ⟨.str ti, .str ur, (u : Rat) / 10 ^ 6, .null⟩) := by
  refine ⟨fun kvs key m h => ?_, fun kvs key s q h1 h2 h3 => ?_,
          fun u ti ur => rfl⟩
  · simp [_parse_timestamp_key, pyContains, pySubscript, h,
          parse_datetime_millis, pyDivNum]
  · simp [_parse_timestamp_key, pyContains, pySubscript, h1, h2,
          parse_json_utc_date, h3]

/-- C6 (witness): a record with timestampMs=2000 decodes to 2 seconds, a
record with an ISO timestamp string decodes to the corresponding UTC epoch
seconds, and a Chrome record with time_usec=1500000 decodes to 1.5
seconds. -/
theorem C6_timestamp_encoding_detection_witness :
    _parse_timestamp_key (.obj [("timestampMs", .int 2000)]) "timestamp" =
      .ok (((2000 : Int) : Rat) / 1000) ∧
    _parse_timestamp_key
        (.obj [("timestamp", .str "1970-01-02T00:00:05Z")]) "timestamp" =
      .ok 86405 ∧
    parseChromeRecord
        (.obj [("time_usec", .int 1500000), ("title", .str "t"),
               ("url", .str "u")]) =
      .ok ⟨.str "t", .str "u", ((1500000 : Int) : Rat) / 10 ^ 6, .null⟩ :=
  ⟨C6_timestamp_encoding_detection.1 [("timestampMs", .int 2000)]
      "timestamp" 2000 rfl,
   C6_timestamp_encoding_detection.2.1 [("timestamp", .str "1970-01-02T00:00:05Z")]
      "timestamp" "1970-01-02T00:00:05Z" 86405 rfl rfl (by decide),
   C6_timestamp_encoding_detection.2.2 1500000 "t" "u"⟩

/-- C7 (counterexample): the Chrome history decoder emits the url field
verbatim — here a plain-http URL whose host the upgrade transform does
rewrite to https — so the secure-scheme upgrade is not applied by every
decoder to every URL-valued field. -/
theorem C7_counterexample :
    parseChromeRecord
      (.obj [("title", .str "t"), ("url", .str "http://youtube.com/a"),
             ("time_usec", .int 1500000)]) =
      .ok ⟨.str "t", .str "http://youtube.com/a", 3 / 2, .null⟩ ∧
    convert_to_https "http://youtube.com/a" = "https://youtube.com/a" ∧
    ("http://youtube.com/a" : String) ≠ "https://youtube.com/a" :=
  ⟨by rfl, rfl, by decide⟩

/-- C7 (amended): the secure-scheme upgrade is applied to the activity
decoder's titleUrl and to locationInfo url/sourceUrl, and an absent (null)
value passes through unchanged as null; it is deliberately not applied to
the Chrome history url, nor to subtitle urls. -/
theorem C7_url_upgrade_scope :
    (∀ (h t u ts : String) (q : Rat),
        parse_json_utc_date (.str ts) = .ok q →
        parseActivityBlob
          (.obj [("header", .str h), ("title", .str t),
                 ("titleUrl", .str u), ("time", .str ts)]) =
          .ok ⟨.str h, .str t, q, .null, .str (convert_to_https u), [], [],
               [], .arr []⟩) ∧
    (∀ (h t ts : String) (q : Rat),
        parse_json_utc_date (.str ts) = .ok q →
        parseActivityBlob
          (.obj [("header", .str h), ("title", .str t),
                 ("time", .str ts)]) =
          .ok ⟨.str h, .str t, q, .null, .null, [], [], [], .arr []⟩) ∧
    (∀ u u2 : String,
        parseLocInfoItem (.obj [("url", .str u), ("sourceUrl", .str u2)]) =
          .ok ⟨.null, .str (convert_to_https u), .null,
               .str (convert_to_https u2)⟩) ∧
    convert_to_https_opt .null = .ok .null ∧
    (∀ n u : String,
        parseSubtitleItem (.obj [("name", .str n), ("url", .str u)]) =
          some ⟨n, .str u⟩) ∧
    (∀ (u ti : String) (tu : Int),
        parseChromeRecord
          (.obj [("title", .str ti), ("url", .str u),
                 ("time_usec", .int tu)]) =
          .ok ⟨.str ti, .str u, (tu : Rat) / 10 ^ 6, .null⟩) := by
  refine ⟨fun h t u ts q hts => ?_, fun h t ts q hts => ?_,
          fun u u2 => rfl, rfl, fun n u => rfl, fun u ti tu => rfl⟩ <;>
    (simp [parseActivityBlob, pyGetD, pyGet, pyIter, pyContains, lookupKV,
           JSON.isNull, hts, convert_to_https_opt]
     rfl)

/-- C7 (witness): a concrete activity record with a plain-http titleUrl
decodes with the titleUrl upgraded to https, and one without a titleUrl
decodes with titleUrl null. -/
theorem C7_url_upgrade_scope_witness :
    parseActivityBlob
      (.obj [("header", .str "Chrome"), ("title", .str "t"),
             ("titleUrl", .str "http://youtube.com/a"),
             ("time", .str "1970-01-02T00:00:05Z")]) =
      .ok ⟨.str "Chrome", .str "t", 86405, .null,
           .str (convert_to_https "http://youtube.com/a"), [], [], [],
           .arr []⟩ ∧
    parseActivityBlob
      (.obj [("header", .str "Chrome"), ("title", .str "t"),
             ("time", .str "1970-01-02T00:00:05Z")]) =
      .ok ⟨.str "Chrome", .str "t", 86405, .null, .null, [], [], [],
           .arr []⟩ :=
  ⟨C7_url_upgrade_scope.1 "Chrome" "t" "http://youtube.com/a"
      "1970-01-02T00:00:05Z" 86405 (by rfl),
   C7_url_upgrade_scope.2.1 "Chrome" "t" "1970-01-02T00:00:05Z" 86405
      (by rfl)⟩

/-- C3: every Activity identity key is the tuple (header, title, timestamp
truncated to whole seconds) and every PlaceVisit identity key is the tuple
(lat, lng, start timestamp truncated to whole seconds, raw optional visit
confidence); truncation means the key component is within one second of the
event timestamp. -/
theorem C3_identity_key_tuples :
    (∀ a : Activity,
        a.key = (a.header, a.title, pyTrunc a.time) ∧
        |a.time - ((a.key.2.2 : Int) : Rat)| < 1) ∧
    (∀ p : PlaceVisit,
        p.key = (p.lat, p.lng, pyTrunc p.startTime, p.visitConfidence) ∧
        |p.startTime - ((p.key.2.2.1 : Int) : Rat)| < 1) := by
  constructor
  · intro a
    exact ⟨rfl, abs_sub_pyTrunc_lt_one a.time⟩
  · intro p
    exact ⟨rfl, abs_sub_pyTrunc_lt_one p.startTime⟩

/-- C4 (counterexample): two Activity events that differ in a field the key
derivation reads (the timestamp, by half a second) nevertheless have equal
keys, so the key is not injective in the fields it reads. -/
theorem C4_counterexample :
    (Activity.mk (.str "YouTube") (.str "t") 0 .null .null [] [] [] (.arr [])).time ≠
      (Activity.mk (.str "YouTube") (.str "t") (1 / 2) .null .null [] [] []
        (.arr [])).time ∧
    (Activity.mk (.str "YouTube") (.str "t") 0 .null .null [] [] [] (.arr [])).key =
      (Activity.mk (.str "YouTube") (.str "t") (1 / 2) .null .null [] [] []
        (.arr [])).key := by
  constructor
  · intro h
    simp only [] at h
    exact absurd h (by decide)
  · rfl

/-- C4 (amended): identity keys are deterministic, and injective with respect
to the second-truncated projections of the fields they read: two Activity
events share a key exactly when header, title and truncated timestamp agree;
two ChromeHistory events exactly when url and truncated timestamp agree; two
Location events exactly when lat, lng, accuracy and truncated timestamp
agree.  A sub-second change of a timestamp does not change the key. -/
theorem C4_key_determinism_truncated_injectivity :
    (∀ a b : Activity,
        a.key = b.key ↔
          a.header = b.header ∧ a.title = b.title ∧
            pyTrunc a.time = pyTrunc b.time) ∧
    (∀ c d : ChromeHistory,
        c.key = d.key ↔ c.url = d.url ∧ pyTrunc c.dt = pyTrunc d.dt) ∧
    (∀ l m : Location,
        l.key = m.key ↔
          l.lat = m.lat ∧ l.lng = m.lng ∧ l.accuracy = m.accuracy ∧
            pyTrunc l.dt = pyTrunc m.dt) := by
  refine ⟨fun a b => ?_, fun c d => ?_, fun l m => ?_⟩ <;>
    simp [Activity.key, ChromeHistory.key, Location.key, Prod.ext_iff]

/-- C10: for every PlayStoreAppInstall event the canonical timestamp dt is
lastUpdateTime (so whenever the two stored times differ, dt is not
firstInstallationTime), and the identity key is lastUpdateTime truncated to
whole seconds. -/
theorem C10_appinstall_dt_and_key :
    ∀ a : PlayStoreAppInstall,
      a.dt = a.lastUpdateTime ∧
      a.key = pyTrunc a.lastUpdateTime ∧
      (a.lastUpdateTime ≠ a.firstInstallationTime →
        a.dt ≠ a.firstInstallationTime) := by
  intro a
  exact ⟨rfl, rfl, fun h => h⟩

/-- C10 (witness): a concrete install event whose two stored times differ
has dt equal to lastUpdateTime and distinct from firstInstallationTime. -/
theorem C10_appinstall_dt_and_key_witness :
    (PlayStoreAppInstall.mk (.str "app") 5 3 .null .null .null).dt = 5 ∧
    (PlayStoreAppInstall.mk (.str "app") 5 3 .null .null .null).key = 5 ∧
    (PlayStoreAppInstall.mk (.str "app") 5 3 .null .null .null).dt ≠ 3 := by
  refine ⟨rfl, by decide, ?_⟩
  exact (C10_appinstall_dt_and_key
    (PlayStoreAppInstall.mk (.str "app") 5 3 .null .null .null)).2.2 (by decide)

/-- C8 (counterexample): a semantic-location record whose location object
misses the required keys (here placeId, latitudeE7 and longitudeE7 are all
absent) is dropped with only a debug log: the decoder output contains no
DecodeError value and no event for it, so a record-level defect disappears
silently. -/
theorem C8_counterexample :
    _parse_semantic_location_history
      (.obj [("timelineObjects", .arr
        [.obj [("placeVisit", .obj
          [("location", .obj [("semanticType", .str "TYPE_HOME")]),
           ("duration", .obj [("startTimestampMs", .int 1000),
                              ("endTimestampMs", .int 2000)])])]])]) =
      ⟨[], none⟩ := rfl

/-- C8 (amended): the activity decoder yields exactly one element per record
(no silent drops), and the semantic-location decoder silently skips a record
only when the timeline object lacks the placeVisit key, or when the record's
location object is missing one of the required keys placeId, latitudeE7,
longitudeE7 (the documented defensive continue). -/
theorem C8_no_silent_drop_scope :
    (∀ blobs : List JSON,
        (_parse_json_activity (.arr blobs)).yielded.length = blobs.length) ∧
    (∀ tlo : JSON, parsePlaceVisitRecord tlo = .skip →
        pyContains tlo "placeVisit" = .ok false ∨
        ∃ pv loc k, pyGet tlo "placeVisit" = .ok pv ∧
          _check_required_keys pv _sem_required_keys = .ok none ∧
          pyGet pv "location" = .ok loc ∧
          _check_required_keys loc _sem_required_location_keys =
            .ok (some k)) := by
  constructor
  · intro blobs
    simp [_parse_json_activity, pyIter, JSON.isList]
  · intro tlo hskip
    unfold parsePlaceVisitRecord at hskip
    split at hskip
    · exact absurd hskip (by simp)
    · exact Or.inl (by assumption)
    · split at hskip
      · exact absurd hskip (by simp)
      · rename_i pv hg
        split at hskip
        · exact absurd hskip (by simp)
        · exact absurd hskip (by simp)
        · rename_i hck
          split at hskip
          · exact absurd hskip (by simp)
          · rename_i ht
            right
            unfold placeVisitTryBody at ht
            split at ht
            · exact absurd ht (by simp)
            · rename_i loc hl
              split at ht
              · exact absurd ht (by simp)
              · rename_i k hck2
                exact ⟨pv, loc, k, hg, hck, hl, hck2⟩
              · exfalso
                cases hb : placeVisitBuild pv loc <;> rw [hb] at ht <;>
                  simp [Except.map] at ht
          · exact absurd hskip (by simp)

/-- C8 (witness): the record of the counterexample is indeed skipped, and
the characterization identifies the missing required location key. -/
theorem C8_no_silent_drop_scope_witness :
    parsePlaceVisitRecord
        (.obj [("placeVisit", .obj
          [("location", .obj [("semanticType", .str "TYPE_HOME")]),
           ("duration", .obj [("startTimestampMs", .int 1000),
                              ("endTimestampMs", .int 2000)])])]) =
      .skip ∧
    (pyContains
        (.obj [("placeVisit", .obj
          [("location", .obj [("semanticType", .str "TYPE_HOME")]),
           ("duration", .obj [("startTimestampMs", .int 1000),
                              ("endTimestampMs", .int 2000)])])])
        "placeVisit" = .ok false ∨
      ∃ pv loc k, pyGet
          (.obj [("placeVisit", .obj
            [("location", .obj [("semanticType", .str "TYPE_HOME")]),
             ("duration", .obj [("startTimestampMs", .int 1000),
                                ("endTimestampMs", .int 2000)])])])
          "placeVisit" = .ok pv ∧
        _check_required_keys pv _sem_required_keys = .ok none ∧
        pyGet pv "location" = .ok loc ∧
        _check_required_keys loc _sem_required_location_keys =
          .ok (some k)) :=
  ⟨rfl, C8_no_silent_drop_scope.2 _ rfl⟩

/-- C9: in the activity decoder, a new-shape record without a header key is
decoded with header Chrome when its title starts with "Visited
view-source:", and otherwise the failed assertion makes exactly that record
a per-record error value (records are decoded independently, one output
element per record). -/
theorem C9_missing_header_chrome_fallback :
    (∀ (t ts : String) (q : Rat),
        parse_json_utc_date (.str ts) = .ok q →
        strStarts t "Visited view-source:" = true →
        parseActivityBlob (.obj [("title", .str t), ("time", .str ts)]) =
          .ok ⟨.str "Chrome", .str t, q, .null, .null, [], [], [],
               .arr []⟩) ∧
    (∀ t ts : String,
        strStarts t "Visited view-source:" = false →
        parseActivityBlob (.obj [("title", .str t), ("time", .str ts)]) =
          .error .assertionErr) ∧
    (∀ blobs : List JSON,
        _parse_json_activity (.arr blobs) =
          ⟨blobs.map parseActivityBlob, none⟩) := by
  refine ⟨fun t ts q hts hstart => ?_, fun t ts hstart => ?_,
          fun blobs => rfl⟩
  · simp [parseActivityBlob, pyGetD, pyGet, pyIter, pyContains, lookupKV,
          JSON.isNull, hstart, hts, convert_to_https_opt]
    rfl
  · simp [parseActivityBlob, pyGetD, pyGet, pyIter, pyContains, lookupKV,
          JSON.isNull, hstart, convert_to_https_opt]

/-- C9 (witness): a concrete view-source record decodes with header Chrome,
and a concrete non-view-source record without header becomes a per-record
error. -/
theorem C9_missing_header_chrome_fallback_witness :
    parseActivityBlob
      (.obj [("title", .str "Visited view-source:http://a.com"),
             ("time", .str "1970-01-02T00:00:05Z")]) =
      .ok ⟨.str "Chrome", .str "Visited view-source:http://a.com", 86405,
           .null, .null, [], [], [], .arr []⟩ ∧
    parseActivityBlob
      (.obj [("title", .str "Searched for cats"),
             ("time", .str "1970-01-02T00:00:05Z")]) =
      .error .assertionErr :=
  ⟨C9_missing_header_chrome_fallback.1 "Visited view-source:http://a.com"
      "1970-01-02T00:00:05Z" 86405 (by rfl) (by decide),
   C9_missing_header_chrome_fallback.2.1 "Searched for cats"
      "1970-01-02T00:00:05Z" (by decide)⟩

end Takeout
